import Mathlib

/-!
Shallow embedding of `src/main.go` (mtn-momo payment CLI) and verification of
the specification's claims about it.  The embedding models:

* the input validators (`validatePhoneNumber`, `validateAmount`,
  `validateDescription`, `validatePaymentRequest`),
* the gateway client response handling (`InitiatePayment`,
  `CheckTransactionStatus`), with the HTTP transport abstracted as the
  status code plus the decoded body fields a call delivered,
* the polling loop (`PollTransactionStatus`), with the gateway abstracted as
  a function from call index to a check-status outcome and the context
  cancellation signal abstracted as the checkpoint index from which
  `ctx.Done()` is closed,
* the orchestrator (`run`) and the exit-code behaviour of `main`.
-/

deriving instance DecidableEq for Except

namespace MtnMomo

/-- Constant `defaultBaseURL` from src/main.go line 17. -/
def defaultBaseURL : String := "https://demo.campay.net/api"

/-- Constant `maxPollAttempts` from src/main.go line 19. -/
def maxPollAttempts : ℕ := 40

/-- Constant `minPhoneLength` from src/main.go line 21. -/
def minPhoneLength : ℕ := 9

/-- Constant `minAmount` from src/main.go line 22 (`0.0`), as a rational. -/
def minAmount : ℚ := 0

/-- Constant `pollInterval` from src/main.go line 18, in seconds. -/
def pollIntervalSeconds : ℕ := 3

/-- Go's `len` on a string counts bytes of the UTF-8 encoding. -/
def goLen (s : String) : ℕ := s.utf8ByteSize

/-- `PaymentRequest` struct (src/main.go lines 34-38).  Go field `From` is
named `fromNumber` here because `from` is a Lean keyword. -/
structure PaymentRequest where
  amount : String
  fromNumber : String
  description : String
deriving DecidableEq

/-- `strings.ReplaceAll phone x ""` for the one-character strings `" "`,
`"-"`, `"+"` (src/main.go lines 211-213): removing every occurrence of a
one-character pattern is filtering that character out. -/
def normalizePhone (phone : String) : String :=
  String.mk (phone.data.filter fun c => c != ' ' && c != '-' && c != '+')

/-- `strings.HasPrefix s pre`: the UTF-8 bytes of `pre` lead those of `s`.
For valid UTF-8 this coincides with the character-list prefix test. -/
def goStartsWith (s pre : String) : Bool :=
  pre.data.isPrefixOf s.data

/-- `validatePhoneNumber` (src/main.go lines 205-225). -/
def validatePhoneNumber (phone : String) : Except String Unit :=
  if phone = "" then
    Except.error "phone number cannot be empty"
  else
    let p := normalizePhone phone
    if goLen p < minPhoneLength then
      Except.error "phone number too short (minimum 9 digits)"
    else if goStartsWith p "237" = false ∧ goStartsWith p "6" = false then
      Except.error "invalid phone number format (should start with 237 or 6)"
    else
      Except.ok ()

/-- `validateAmount` (src/main.go lines 228-243).  The standard-library call
`strconv.ParseFloat(amount, 64)` is external to the repository, so it is
abstracted as a parameter `parseFloat`; the parsed IEEE value is modelled as
a rational. -/
def validateAmount (parseFloat : String → Option ℚ) (amount : String) :
    Except String Unit :=
  if amount = "" then
    Except.error "amount cannot be empty"
  else
    match parseFloat amount with
    | none => Except.error "invalid amount format: must be a number"
    | some val =>
      if val ≤ minAmount then
        Except.error "amount must be greater than 0.00"
      else
        Except.ok ()

/-- `validateDescription` (src/main.go lines 246-254).  Go's
`len(description)` is the UTF-8 byte length. -/
def validateDescription (description : String) : Except String Unit :=
  if description = "" then
    Except.error "description cannot be empty"
  else if 200 < goLen description then
    Except.error "description too long (maximum 200 characters)"
  else
    Except.ok ()

/-- `validatePaymentRequest` (src/main.go lines 191-202): phone, then amount,
then description, returning the first failure. -/
def validatePaymentRequest (parseFloat : String → Option ℚ)
    (req : PaymentRequest) : Except String Unit :=
  match validatePhoneNumber req.fromNumber with
  | Except.error e => Except.error e
  | Except.ok _ =>
    match validateAmount parseFloat req.amount with
    | Except.error e => Except.error e
    | Except.ok _ => validateDescription req.description

/-- `InitResponse` struct (src/main.go lines 41-45): the decoded JSON body of
an initiation response. -/
structure InitResponse where
  reference : String
  status : String
  message : String
deriving DecidableEq

/-- The observable outcome of the HTTP POST in `InitiatePayment`: the status
code together with the decoded `InitResponse` body.  The resty transport
itself is external to the repository and abstracted away. -/
structure InitHttp where
  statusCode : ℕ
  body : InitResponse
deriving DecidableEq

/-- The observable outcome of the HTTP GET in `CheckTransactionStatus`: the
status code, the decoded `StatusResponse.Status` field, and the raw body text
used by `resp.String()` in the error path. -/
structure CheckHttp where
  statusCode : ℕ
  status : String
  rawBody : String
deriving DecidableEq

/-- The distinct error returns of `InitiatePayment` (src/main.go 265-276):
transport failure, non-2xx status (carrying code and decoded message), and a
2xx response with an empty reference (carrying the decoded message). -/
inductive GatewayError where
  | requestFailed (msg : String)
  | apiError (statusCode : ℕ) (message : String)
  | noReference (message : String)
deriving DecidableEq

/-- `InitiatePayment` (src/main.go lines 257-279), as a function of the
transport outcome: either a transport error or a response. -/
def InitiatePayment : Except String InitHttp → Except GatewayError String
  | Except.error e => Except.error (GatewayError.requestFailed e)
  | Except.ok resp =>
    if resp.statusCode < 200 ∨ 300 ≤ resp.statusCode then
      Except.error (GatewayError.apiError resp.statusCode resp.body.message)
    else if resp.body.reference = "" then
      Except.error (GatewayError.noReference resp.body.message)
    else
      Except.ok resp.body.reference

/-- `CheckTransactionStatus` (src/main.go lines 319-336), as a function of
the transport outcome. -/
def CheckTransactionStatus : Except String CheckHttp → Except String String
  | Except.error e => Except.error ("request failed: " ++ e)
  | Except.ok resp =>
    if resp.statusCode < 200 ∨ 300 ≤ resp.statusCode then
      Except.error ("API error (status " ++ toString resp.statusCode ++ "): "
        ++ resp.rawBody)
    else
      Except.ok resp.status

/-- The error returns of `PollTransactionStatus` (src/main.go 282-316):
`cancelled` is the pre-call `ctx.Done()` branch (line 288), `waitCancelled`
the `ctx.Done()` branch of the wait select (line 309, worded "transaction
timeout" in the code), `checkFailed` a `CheckTransactionStatus` error
(line 294), and `timeout` the exit after `maxAttempts` iterations
(line 315). -/
inductive PollError where
  | cancelled
  | waitCancelled
  | checkFailed (msg : String)
  | timeout
deriving DecidableEq

/-- Success string returned at src/main.go line 299. -/
def successMsg : String := "✓ Transaction Successful"

/-- Failure string returned at src/main.go line 301. -/
def failedMsg : String := "✗ Transaction Failed"

/-- The context-cancellation signal, abstracted: `doneFrom = some t` means
`ctx.Done()` is closed at every checkpoint index `≥ t`, `none` means it
never fires.  Checkpoint `2*i` is the non-blocking select before call `i`
(line 286) and checkpoint `2*i + 1` is the wait select after call `i`
(line 307). -/
def ctxDone (doneFrom : Option ℕ) (cp : ℕ) : Bool :=
  match doneFrom with
  | none => false
  | some t => decide (t ≤ cp)

/-- The loop body of `PollTransactionStatus` (src/main.go lines 285-313).
`gw i` is the result of the `i`-th `CheckTransactionStatus` call (0-based);
`fuel` is `MaxPollAttempts - attempts`, so `fuel = 0` is the loop exit at
line 315; `calls` counts `checkStatus` calls issued so far; `cp` is the
current checkpoint index; `reports` counts the `Status: PENDING...`
progress notifications printed at line 305. -/
def pollAux (gw : ℕ → Except String String) (doneFrom : Option ℕ) :
    ℕ → ℕ → ℕ → ℕ → Except PollError String × ℕ × ℕ
  | 0, calls, _, reports => (Except.error PollError.timeout, calls, reports)
  | fuel + 1, calls, cp, reports =>
    if ctxDone doneFrom cp then
      (Except.error PollError.cancelled, calls, reports)
    else
      match gw calls with
      | Except.error e => (Except.error (PollError.checkFailed e), calls + 1, reports)
      | Except.ok status =>
        if status = "SUCCESSFUL" then
          (Except.ok successMsg, calls + 1, reports)
        else if status = "FAILED" then
          (Except.ok failedMsg, calls + 1, reports)
        else if ctxDone doneFrom (cp + 1) then
          (Except.error PollError.waitCancelled, calls + 1, reports + 1)
        else
          pollAux gw doneFrom fuel (calls + 1) (cp + 2) (reports + 1)

/-- `PollTransactionStatus` (src/main.go lines 282-316): result, number of
`checkStatus` calls issued, number of PENDING progress notifications. -/
def PollTransactionStatus (maxAttempts : ℕ) (gw : ℕ → Except String String)
    (doneFrom : Option ℕ) : Except PollError String × ℕ × ℕ :=
  pollAux gw doneFrom maxAttempts 0 0 0

/-- `Config` struct (src/main.go lines 26-31); the poll interval is kept in
seconds. -/
structure Config where
  baseURL : String
  apiKey : String
  pollIntervalSeconds : ℕ
  maxPollAttempts : ℕ
deriving DecidableEq

/-- `loadConfig` (src/main.go lines 117-141): `.env` loading is folded into
the abstract environment lookup `getenv`; a missing variable reads as `""`,
matching `os.Getenv`. -/
def loadConfig (getenv : String → String) : Except String Config :=
  if getenv "API_KEY" = "" then
    Except.error "API_KEY environment variable is required"
  else
    Except.ok
      { baseURL := if getenv "BASE_URL" = "" then defaultBaseURL
                   else getenv "BASE_URL"
        apiKey := getenv "API_KEY"
        pollIntervalSeconds := pollIntervalSeconds
        maxPollAttempts := maxPollAttempts }

/-- The error cases of `run` (src/main.go lines 65-114), each wrapping the
stage that failed. -/
inductive RunError where
  | configError (msg : String)
  | inputError (msg : String)
  | validationError (msg : String)
  | initiateError (e : GatewayError)
  | pollError (e : PollError)
deriving DecidableEq

/-- The external world of one `run`: environment variables, the user's
input (or a read error), the parse function backing `strconv.ParseFloat`,
the transport outcome of the initiate POST, the transport outcome of each
status GET, and the cancellation fire point of the timeout context. -/
structure RunEnv where
  getenv : String → String
  userInput : Except String PaymentRequest
  parseFloat : String → Option ℚ
  initiateResult : Except String InitHttp
  checkResults : ℕ → Except String CheckHttp
  cancelFrom : Option ℕ

/-- The gateway function the poll loop sees in `run`: call `i` performs
`CheckTransactionStatus` on the `i`-th transport outcome. -/
def runGateway (env : RunEnv) : ℕ → Except String String :=
  fun i => CheckTransactionStatus (env.checkResults i)

/-- `run` (src/main.go lines 65-114): config, input, validation, initiate,
poll — stopping at the first failure.  The second component counts network
calls issued (the initiate POST plus each status GET). -/
def run (env : RunEnv) : Except RunError String × ℕ :=
  match loadConfig env.getenv with
  | Except.error e => (Except.error (RunError.configError e), 0)
  | Except.ok config =>
    match env.userInput with
    | Except.error e => (Except.error (RunError.inputError e), 0)
    | Except.ok req =>
      match validatePaymentRequest env.parseFloat req with
      | Except.error e => (Except.error (RunError.validationError e), 0)
      | Except.ok _ =>
        match InitiatePayment env.initiateResult with
        | Except.error e => (Except.error (RunError.initiateError e), 1)
        | Except.ok _ =>
          match PollTransactionStatus config.maxPollAttempts (runGateway env)
              env.cancelFrom with
          | (Except.error e, calls, _) =>
            (Except.error (RunError.pollError e), 1 + calls)
          | (Except.ok status, calls, _) => (Except.ok status, 1 + calls)

/-- `main` (src/main.go lines 58-63): exit code 1 when `run` returns an
error, 0 otherwise. -/
def mainExitCode (env : RunEnv) : ℕ :=
  match (run env).1 with
  | Except.error _ => 1
  | Except.ok _ => 0

end MtnMomo

namespace MtnMomo

/-- The `calls` counter never decreases across the loop. -/
theorem pollAux_calls_mono (gw : ℕ → Except String String) (d : Option ℕ) :
    ∀ fuel calls cp reports, calls ≤ (pollAux gw d fuel calls cp reports).2.1 := by
  intro fuel
  induction fuel with
  | zero => intro calls cp reports; exact Nat.le_refl calls
  | succ f ih =>
    intro calls cp reports
    simp only [pollAux]
    split
    · exact Nat.le_refl calls
    · split
      · exact Nat.le_succ calls
      · split
        · exact Nat.le_succ calls
        · split
          · exact Nat.le_succ calls
          · split
            · exact Nat.le_succ calls
            · exact Nat.le_trans (Nat.le_succ calls)
                (ih (calls + 1) (cp + 2) (reports + 1))

/-- Each loop iteration issues at most one `checkStatus` call, so the whole
loop issues at most `fuel` further calls. -/
theorem pollAux_calls_le (gw : ℕ → Except String String) (d : Option ℕ) :
    ∀ fuel calls cp reports, (pollAux gw d fuel calls cp reports).2.1 ≤ calls + fuel := by
  intro fuel
  induction fuel with
  | zero => intro calls cp reports; exact Nat.le_add_right calls 0
  | succ f ih =>
    intro calls cp reports
    simp only [pollAux]
    split
    · exact Nat.le_add_right calls (f + 1)
    · split
      · show calls + 1 ≤ calls + (f + 1); omega
      · split
        · show calls + 1 ≤ calls + (f + 1); omega
        · split
          · show calls + 1 ≤ calls + (f + 1); omega
          · split
            · show calls + 1 ≤ calls + (f + 1); omega
            · exact Nat.le_trans (ih (calls + 1) (cp + 2) (reports + 1)) (by omega)

/-- With the cancellation signal firing at checkpoint `t`, either no call is
issued, or the calls issued satisfy `2·(final - initial) + cp ≤ t + 1`: every
call was guarded by a pre-call checkpoint strictly before `t`. -/
theorem pollAux_cancel_calls (gw : ℕ → Except String String) (t : ℕ) :
    ∀ fuel calls cp reports,
      (pollAux gw (some t) fuel calls cp reports).2.1 = calls ∨
      2 * (pollAux gw (some t) fuel calls cp reports).2.1 + cp ≤ 2 * calls + t + 1 := by
  intro fuel
  induction fuel with
  | zero => intro calls cp reports; left; rfl
  | succ f ih =>
    intro calls cp reports
    by_cases hdone : t ≤ cp
    · left
      simp [pollAux, ctxDone, hdone]
    · have hcp : cp < t := Nat.lt_of_not_le hdone
      simp only [pollAux, ctxDone, hdone, decide_eq_true_eq, if_false,
        decide_eq_false hdone]
      split
      · right; show 2 * (calls + 1) + cp ≤ 2 * calls + t + 1; omega
      · split
        · right; show 2 * (calls + 1) + cp ≤ 2 * calls + t + 1; omega
        · split
          · right; show 2 * (calls + 1) + cp ≤ 2 * calls + t + 1; omega
          · split
            · right; show 2 * (calls + 1) + cp ≤ 2 * calls + t + 1; omega
            · rcases ih (calls + 1) (cp + 2) (reports + 1) with h | h
              · right; rw [h]; omega
              · right; omega

/-- If the gateway answers PENDING for the first `k` calls after `calls` and
SUCCESSFUL on the next, and at least `k + 1` attempts remain, the loop stops
at that first terminal answer: `k + 1` further calls, `k` further PENDING
reports, result `successMsg`. -/
theorem pollAux_pending_until (gw : ℕ → Except String String) :
    ∀ (k fuel calls cp reports : ℕ), k < fuel →
      (∀ i, i < k → gw (calls + i) = Except.ok "PENDING") →
      gw (calls + k) = Except.ok "SUCCESSFUL" →
      pollAux gw none fuel calls cp reports
        = (Except.ok successMsg, calls + k + 1, reports + k) := by
  intro k
  induction k with
  | zero =>
    intro fuel calls cp reports hk _ hsucc
    cases fuel with
    | zero => omega
    | succ f =>
      simp only [Nat.add_zero] at hsucc
      simp [pollAux, ctxDone, hsucc]
  | succ k ih =>
    intro fuel calls cp reports hk hpend hsucc
    cases fuel with
    | zero => omega
    | succ f =>
      have h0 : gw calls = Except.ok "PENDING" := by
        have h := hpend 0 (Nat.succ_pos k)
        simpa using h
      have hrec := ih f (calls + 1) (cp + 2) (reports + 1)
        (Nat.lt_of_succ_lt_succ hk)
        (fun i hi => by
          have h := hpend (i + 1) (Nat.succ_lt_succ hi)
          have heq : calls + (i + 1) = calls + 1 + i := by omega
          rwa [heq] at h)
        (by
          have heq : calls + (k + 1) = calls + 1 + k := by omega
          rwa [heq] at hsucc)
      simp only [pollAux, ctxDone, h0]
      rw [if_neg (by decide : ¬ ("PENDING" = "SUCCESSFUL")),
        if_neg (by decide : ¬ ("PENDING" = "FAILED"))]
      rw [hrec]
      simp only [Bool.false_eq_true, if_false, Prod.mk.injEq, true_and]
      omega

/-- C1: in every execution of the poller — any gateway behaviour, any
cancellation fire point — the number of `checkStatus` calls issued is at
most `maxAttempts`; and with a stub that always returns PENDING and
`maxAttempts = 3`, `PollTransactionStatus` issues exactly 3 calls and then
returns the timeout error. -/
theorem poll_calls_within_budget :
    (∀ (maxAttempts : ℕ) (gw : ℕ → Except String String) (doneFrom : Option ℕ),
        (PollTransactionStatus maxAttempts gw doneFrom).2.1 ≤ maxAttempts) ∧
    PollTransactionStatus 3 (fun _ => Except.ok "PENDING") none
      = (Except.error PollError.timeout, 3, 3) := by
  constructor
  · intro m gw d
    have h := pollAux_calls_le gw d m 0 0 0
    simpa using h
  · decide

/-- C2: for `k < maxAttempts`, against a gateway stub whose first `k`
answers are PENDING and whose `(k+1)`-th answer is SUCCESSFUL, the poller
issues exactly `k + 1` `checkStatus` calls and returns the SUCCESSFUL
terminal outcome (with exactly `k` PENDING progress reports — no call
follows the first terminal status). -/
theorem poll_stops_at_first_terminal (k m : ℕ) (hkm : k < m) :
    PollTransactionStatus m
        (fun n => if n < k then Except.ok "PENDING" else Except.ok "SUCCESSFUL")
        none
      = (Except.ok successMsg, k + 1, k) := by
  have h := pollAux_pending_until
      (fun n => if n < k then Except.ok "PENDING" else Except.ok "SUCCESSFUL")
      k m 0 0 0 hkm
      (fun i hi => by simp [Nat.zero_add, hi])
      (by simp)
  simpa using h

/-- Witness for C2 at `k = 2`, `maxAttempts = 5`. -/
theorem poll_stops_at_first_terminal_witness :
    PollTransactionStatus 5
        (fun n => if n < 2 then Except.ok "PENDING" else Except.ok "SUCCESSFUL")
        none
      = (Except.ok successMsg, 2 + 1, 2) :=
  poll_stops_at_first_terminal 2 5 (by decide)

/-- C6: with the cancellation signal firing at checkpoint `t`, every
`checkStatus` call was guarded by a pre-call check strictly before the fire
point (`2·calls ≤ t + 1`, so after the signal no further calls are issued);
and when the signal has already fired before the loop starts (`t = 0`,
`maxAttempts > 0`) the poller returns the cancellation error having issued
no call at all. -/
theorem poll_cancellation (m : ℕ) (gw : ℕ → Except String String) (t : ℕ)
    (hm : 0 < m) :
    2 * (PollTransactionStatus m gw (some t)).2.1 ≤ t + 1 ∧
    (t = 0 → PollTransactionStatus m gw (some t)
        = (Except.error PollError.cancelled, 0, 0)) := by
  constructor
  · have h := pollAux_cancel_calls gw t m 0 0 0
    show 2 * (pollAux gw (some t) m 0 0 0).2.1 ≤ t + 1
    rcases h with h | h <;> omega
  · rintro rfl
    cases m with
    | zero => omega
    | succ f =>
      show pollAux gw (some 0) (f + 1) 0 0 0 = _
      simp [pollAux, ctxDone]

/-- Witness for C6 at `maxAttempts = 1`, a constant-PENDING stub, `t = 0`. -/
theorem poll_cancellation_witness :
    2 * (PollTransactionStatus 1 (fun _ => Except.ok "PENDING") (some 0)).2.1 ≤ 0 + 1 ∧
    (0 = 0 → PollTransactionStatus 1 (fun _ => Except.ok "PENDING") (some 0)
        = (Except.error PollError.cancelled, 0, 0)) :=
  poll_cancellation 1 (fun _ => Except.ok "PENDING") 0 (by decide)

/-- C10: a `checkStatus` status other than exactly "SUCCESSFUL" or "FAILED"
(unrecognized value, empty string, lowercase variant, ...) is treated as
non-terminal: no protocol error, one attempt consumed (fuel `m + 1 → m`),
one PENDING progress notification reported, and the loop continues at the
next iteration. -/
theorem poll_unrecognized_status_nonterminal (s : String) (m : ℕ)
    (gw : ℕ → Except String String)
    (h1 : s ≠ "SUCCESSFUL") (h2 : s ≠ "FAILED")
    (h0 : gw 0 = Except.ok s) :
    PollTransactionStatus (m + 1) gw none = pollAux gw none m 1 2 1 := by
  show pollAux gw none (m + 1) 0 0 0 = pollAux gw none m 1 2 1
  simp [pollAux, ctxDone, h0, h1, h2]

/-- Witness for C10 with the unrecognized status "successful" (lowercase)
and one remaining attempt. -/
theorem poll_unrecognized_status_nonterminal_witness :
    PollTransactionStatus (0 + 1) (fun _ => Except.ok "successful") none
      = pollAux (fun _ => Except.ok "successful") none 0 1 2 1 :=
  poll_unrecognized_status_nonterminal "successful" 0
    (fun _ => Except.ok "successful") (by decide) (by decide) rfl

/-- C3: `validatePhoneNumber` accepts a phone string exactly when it is
non-empty, its normalized form (spaces, hyphens and plus signs removed) has
length at least 9, and that normalized form starts with "237" or "6";
equivalently it rejects exactly the empty string and the strings whose
normalized form is too short or has a different leading digit sequence. -/
theorem validatePhoneNumber_ok_iff :
    ∀ phone : String,
      validatePhoneNumber phone = Except.ok () ↔
        phone ≠ "" ∧
        minPhoneLength ≤ goLen (normalizePhone phone) ∧
        (goStartsWith (normalizePhone phone) "237" = true ∨
          goStartsWith (normalizePhone phone) "6" = true) := by
  intro phone
  simp only [validatePhoneNumber]
  split_ifs with h1 h2 h3
  · simp [h1]
  · constructor
    · intro h; exact h.elim
    · rintro ⟨-, hlen, -⟩; omega
  · constructor
    · intro h; exact h.elim
    · rintro ⟨-, -, h | h⟩
      · rw [h3.1] at h; exact Bool.noConfusion h
      · rw [h3.2] at h; exact Bool.noConfusion h
  · constructor
    · intro _
      refine ⟨h1, by omega, ?_⟩
      rcases Bool.eq_false_or_eq_true (goStartsWith (normalizePhone phone) "237")
        with ha | ha
      · exact Or.inl ha
      · rcases Bool.eq_false_or_eq_true (goStartsWith (normalizePhone phone) "6")
          with hb | hb
        · exact Or.inr hb
        · exact absurd ⟨ha, hb⟩ h3
    · intro _; rfl

/-- C4: for every parse function standing for `strconv.ParseFloat`,
`validateAmount` accepts an amount string exactly when it is non-empty,
parses to some value, and that value is positive; it rejects exactly the
empty string, the unparseable strings, and those parsing to a value ≤ 0. -/
theorem validateAmount_ok_iff :
    ∀ (parseFloat : String → Option ℚ) (amount : String),
      validateAmount parseFloat amount = Except.ok () ↔
        amount ≠ "" ∧ ∃ v : ℚ, parseFloat amount = some v ∧ minAmount < v := by
  intro parseFloat amount
  simp only [validateAmount]
  split_ifs with h1
  · simp [h1]
  · cases hp : parseFloat amount with
    | none => simp [h1, hp]
    | some v =>
      simp only [h1, hp, ne_eq, not_false_iff, true_and, Option.some.injEq]
      split_ifs with hv
      · constructor
        · intro h; exact h.elim
        · rintro ⟨w, hw, hwpos⟩
          rw [← hw] at hwpos
          exact absurd hv (not_le.mpr hwpos)
      · constructor
        · intro _; exact ⟨v, rfl, not_le.mp hv⟩
        · intro _; rfl

/-- C5 (amended): `validateDescription` rejects a description exactly when
it is empty or its UTF-8 encoding is longer than 200 bytes (Go's `len`);
descriptions of 1 to 200 bytes are accepted. -/
theorem validateDescription_ok_iff :
    ∀ d : String,
      validateDescription d = Except.ok () ↔ d ≠ "" ∧ goLen d ≤ 200 := by
  intro d
  simp only [validateDescription]
  split_ifs with h1 h2
  · simp [h1]
  · constructor
    · intro h; exact h.elim
    · rintro ⟨-, hlen⟩; omega
  · constructor
    · intro _; exact ⟨h1, by omega⟩
    · intro _; rfl

/-- C5 counterexample: a non-empty description of 101 characters (well
inside "1 to 200 characters"), each the two-byte character `é`, is
nevertheless rejected, because the code bounds `len(description)` — the
UTF-8 byte length, here 202 — not the character count. -/
theorem validateDescription_charcount_cex :
    (String.mk (List.replicate 101 'é')).length = 101 ∧
    String.mk (List.replicate 101 'é') ≠ "" ∧
    validateDescription (String.mk (List.replicate 101 'é')) ≠ Except.ok () := by
  refine ⟨by decide, by decide, by decide⟩

/-- C7: for every initiation response whose HTTP status code lies outside
200-299, `InitiatePayment` returns the gateway error carrying exactly that
status code and the message field the decoded body provided. -/
theorem initiatePayment_non2xx_error (resp : InitHttp)
    (h : resp.statusCode < 200 ∨ 300 ≤ resp.statusCode) :
    InitiatePayment (Except.ok resp)
      = Except.error (GatewayError.apiError resp.statusCode resp.body.message) := by
  simp only [InitiatePayment]
  rw [if_pos h]

/-- Witness for C7: HTTP 400 with body message "invalid credentials" yields
the gateway error carrying status 400 and that message. -/
theorem initiatePayment_non2xx_error_witness :
    InitiatePayment (Except.ok ⟨400, ⟨"", "", "invalid credentials"⟩⟩)
      = Except.error (GatewayError.apiError 400 "invalid credentials") :=
  initiatePayment_non2xx_error ⟨400, ⟨"", "", "invalid credentials"⟩⟩
    (by decide)

/-- C8: a 2xx initiation response whose body lacks a non-empty reference
makes `InitiatePayment` return a gateway error instead of a reference; and
whenever `InitiatePayment` does return a reference, it is non-empty. -/
theorem initiatePayment_reference_nonempty :
    (∀ resp : InitHttp, 200 ≤ resp.statusCode → resp.statusCode < 300 →
        resp.body.reference = "" →
        InitiatePayment (Except.ok resp)
          = Except.error (GatewayError.noReference resp.body.message)) ∧
    (∀ (x : Except String InitHttp) (r : String),
        InitiatePayment x = Except.ok r → r ≠ "") := by
  constructor
  · intro resp h1 h2 h3
    simp only [InitiatePayment]
    rw [if_neg (by omega), if_pos h3]
  · intro x r h
    cases x with
    | error e => exact Except.noConfusion h
    | ok resp =>
      simp only [InitiatePayment] at h
      split_ifs at h with ha hb
      cases h
      exact hb

/-- Witness for C8: HTTP 204 with an empty reference and message
"missing ref" yields the no-reference gateway error. -/
theorem initiatePayment_reference_nonempty_witness :
    InitiatePayment (Except.ok ⟨204, ⟨"", "PENDING", "missing ref"⟩⟩)
      = Except.error (GatewayError.noReference "missing ref") :=
  initiatePayment_reference_nonempty.1 ⟨204, ⟨"", "PENDING", "missing ref"⟩⟩
    (by decide) (by decide) rfl

/-- C9: when config loading and input reading succeed but validation of the
payment request fails, `run` returns that validation error having issued
zero network calls — neither the initiate POST nor any status GET — and
`main` exits with code 1. -/
theorem run_validation_fails_before_network (env : RunEnv)
    (req : PaymentRequest) (cfg : Config) (e : String)
    (hcfg : loadConfig env.getenv = Except.ok cfg)
    (hin : env.userInput = Except.ok req)
    (hval : validatePaymentRequest env.parseFloat req = Except.error e) :
    run env = (Except.error (RunError.validationError e), 0) ∧
    mainExitCode env = 1 := by
  have hrun : run env = (Except.error (RunError.validationError e), 0) := by
    simp only [run, hcfg, hin, hval]
  exact ⟨hrun, by simp only [mainExitCode, hrun]⟩

/-- A concrete world for the C9 witness: config present, the user entered an
empty phone number, and every network interaction is left failing — it is
never reached. -/
def emptyPhoneEnv : RunEnv :=
  { getenv := fun _ => "key"
    userInput := Except.ok ⟨"500", "", "Payment test"⟩
    parseFloat := fun _ => none
    initiateResult := Except.error "unreached"
    checkResults := fun _ => Except.error "unreached"
    cancelFrom := none }

/-- Witness for C9: with an empty phone number, `run` reports the phone
validation error, makes zero network calls, and `main` exits 1. -/
theorem run_validation_fails_before_network_witness :
    run emptyPhoneEnv
      = (Except.error (RunError.validationError "phone number cannot be empty"), 0) ∧
    mainExitCode emptyPhoneEnv = 1 :=
  run_validation_fails_before_network emptyPhoneEnv ⟨"500", "", "Payment test"⟩
    (Config.mk "key" "key" 3 40) "phone number cannot be empty" rfl rfl rfl

end MtnMomo
